import Mathlib

/-!
Verification development for the chat-bridge CLI (Go).

This file shallowly embeds the core of the repository:

* `pkg/providers/provider.go` — the `Provider` contract, the registry
  (`RegisterProvider`, `GetProviderSpec`, `RegisterProviderFactory`,
  `GetProviderFactory`, `NewProvider`) and the shared data types
  (`Message`, `ChatRequest`, `ProviderConfig`, `ProviderSpec`);
* `pkg/providers/openai.go` — the OpenAI provider (construction, health
  check, streaming request body, SSE line parsing);
* `cmd/start.go` — the `runStart` orchestration loop (health-check
  gating, per-round history appends, the select loop over text / error /
  timeout events, agent switching).

Modelling conventions:

* Go `map[string]T` registries are embedded as functions
  `String → Option T`; map assignment is pointwise update, which has
  exactly the Go map's insert-overwrite semantics.
* Go `float64` temperatures are embedded as `Rat`.  The code only ever
  constructs and forwards temperatures; no floating-point arithmetic is
  performed on them, so exact rationals are a faithful carrier.
* Channel traffic observed by `runStart`'s `select` loop is embedded as
  a list of `StreamEvent`s: the order in which the loop observed events
  from the two channels.  Exhausting the list with no close/error event
  means no further event ever arrives, in which case the
  `time.After(30 * time.Second)` arm of the `select` fires, so the
  empty trace resolves to the stream-timeout error.
* `encoding/json` is an external library; its `Unmarshal` into the SSE
  chunk struct is embedded as an abstract decoder
  `String → Option (List String)` returning the `Choices[i].Delta.Content`
  fields (`none` = malformed JSON).
-/

/-- Error values of the core, from `pkg/providers/provider.go` and the
`fmt.Errorf` sites in `openai.go` / `start.go`. -/
inductive BridgeError where
  /-- `fmt.Errorf("provider '%s' not yet implemented", key)` in `NewProvider`. -/
  | providerNotImplemented (key : String)
  /-- `ErrInvalidCredentials`. -/
  | invalidCredentials
  /-- `fmt.Errorf("API error (status %d): %s", status, body)`. -/
  | apiError (status : Nat) (body : String)
  /-- `fmt.Errorf("connection failed: %w", err)` wrapping a transport error. -/
  | connectionFailed (msg : String)
  /-- `ErrContextCancelled`. -/
  | contextCancelled
  /-- `fmt.Errorf("stream timeout")` in `runStart`. -/
  | streamTimeout
  /-- A non-EOF read error surfaced from the response body reader. -/
  | readError (msg : String)
  /-- `fmt.Errorf("Agent A/B health check failed: %w", err)` in `runStart`;
  `fromA = true` for Agent A. -/
  | healthFailed (fromA : Bool) (e : BridgeError)
  deriving DecidableEq, Repr

/-- `providers.Message`: one turn of conversation history. -/
structure Message where
  role : String
  content : String
  deriving DecidableEq, Repr

/-- `providers.ChatRequest`. -/
structure ChatRequest where
  model : String
  messages : List Message
  temperature : Rat
  maxTokens : Int
  systemPrompt : String
  deriving DecidableEq, Repr

/-- `providers.ProviderConfig`. -/
structure ProviderConfig where
  apiKey : String
  baseURL : String
  model : String
  temperature : Rat
  deriving DecidableEq, Repr

/-- `providers.ProviderSpec`. -/
structure ProviderSpec where
  key : String
  name : String
  description : String
  defaultModel : String
  needsAPIKey : Bool
  models : List String
  deriving DecidableEq, Repr

/-- The observations the registry's callers make of a constructed
`providers.Provider` interface value: `Name()` and `DefaultModel()`. -/
structure ProviderInst where
  name : String
  defaultModel : String
  deriving DecidableEq, Repr

/-- The spec registry `var providerRegistry = make(map[string]ProviderSpec)`,
embedded as a lookup function. -/
def Registry : Type := String → Option ProviderSpec

/-- `providers.ProviderFactory`. -/
def ProviderFactory : Type := ProviderConfig → ProviderInst

/-- The factory registry `var providerFactories = make(map[string]ProviderFactory)`. -/
def FactoryMap : Type := String → Option ProviderFactory

/-- The empty spec map (state of `providerRegistry` before any `init`). -/
def emptyRegistry : Registry := fun _ => none

/-- The empty factory map. -/
def emptyFactories : FactoryMap := fun _ => none

/-- `RegisterProvider(spec)`: `providerRegistry[spec.Key] = spec`. -/
def RegisterProvider (spec : ProviderSpec) (r : Registry) : Registry :=
  fun k => if k = spec.key then some spec else r k

/-- `GetProviderSpec(key)`: map lookup.  Go's `(spec, ok)` pair is embedded
as `Option ProviderSpec`. -/
def GetProviderSpec (key : String) (r : Registry) : Option ProviderSpec :=
  r key

/-- `RegisterProviderFactory(key, factory)`: `providerFactories[key] = factory`. -/
def RegisterProviderFactory (key : String) (f : ProviderFactory) (m : FactoryMap) :
    FactoryMap :=
  fun k => if k = key then some f else m k

/-- `GetProviderFactory(key)`. -/
def GetProviderFactory (key : String) (m : FactoryMap) : Option ProviderFactory :=
  m key

/-- `NewProvider(key, cfg)`: consults only the factory map; with no factory
registered it returns `(nil, fmt.Errorf("provider '%s' not yet implemented", key))`.
The Go `(Provider, error)` pair is embedded as `Option ProviderInst × Option BridgeError`. -/
def NewProvider (key : String) (cfg : ProviderConfig) (m : FactoryMap) :
    Option ProviderInst × Option BridgeError :=
  match GetProviderFactory key m with
  | none => (none, some (.providerNotImplemented key))
  | some f => (some (f cfg), none)

/-- The concrete `OpenAIProvider` struct (the `http.Client` field carries no
observable state and is omitted). -/
structure OpenAIProvider where
  apiKey : String
  baseURL : String
  model : String
  deriving DecidableEq, Repr

/-- `NewOpenAIProvider(config)`: defaults the base URL and model when the
config leaves them empty. -/
def NewOpenAIProvider (config : ProviderConfig) : OpenAIProvider :=
  { apiKey := config.apiKey
    baseURL := if config.baseURL = "" then "https://api.openai.com/v1" else config.baseURL
    model := if config.model = "" then "gpt-4o-mini" else config.model }

/-- `(p *OpenAIProvider) Name()`. -/
def OpenAIProvider.nameOf (_ : OpenAIProvider) : String := "openai"

/-- `(p *OpenAIProvider) DefaultModel()`. -/
def OpenAIProvider.defaultModelOf (p : OpenAIProvider) : String := p.model

/-- The interface view of a constructed `OpenAIProvider`. -/
def OpenAIProvider.toInst (p : OpenAIProvider) : ProviderInst :=
  { name := p.nameOf, defaultModel := p.defaultModelOf }

/-- The `ProviderSpec` literal registered by `openai.go`'s `init`. -/
def openAISpec : ProviderSpec :=
  { key := "openai"
    name := "OpenAI"
    description := "GPT models from OpenAI"
    defaultModel := "gpt-4o-mini"
    needsAPIKey := true
    models := ["gpt-4o", "gpt-4o-mini", "gpt-4-turbo", "gpt-4", "gpt-3.5-turbo"] }

/-- The factory registered by `openai.go`'s `init`. -/
def openAIFactory : ProviderFactory :=
  fun cfg => (NewOpenAIProvider cfg).toInst

/-- `providerRegistry` after process initialization (`openai.go`'s `init` is
the only registration in the repository). -/
def initialRegistry : Registry :=
  RegisterProvider openAISpec emptyRegistry

/-- `providerFactories` after process initialization. -/
def initialFactories : FactoryMap :=
  RegisterProviderFactory "openai" openAIFactory emptyFactories

/-- The outcome of the single HTTP exchange a health check or streaming call
performs: either the transport failed (`p.client.Do` returned an error) or a
response with a status code and a fully-read body arrived. -/
inductive HTTPResult where
  | failure (msg : String)
  | response (status : Nat) (body : String)
  deriving DecidableEq, Repr

/-- The request line `Health` builds: `GET <baseURL>/models` with an
`Authorization: Bearer <key>` header. -/
structure HealthRequest where
  method : String
  url : String
  auth : String
  deriving DecidableEq, Repr

/-- The request `(p *OpenAIProvider) Health(ctx)` issues. -/
def OpenAIProvider.healthRequest (p : OpenAIProvider) : HealthRequest :=
  { method := "GET", url := p.baseURL ++ "/models", auth := "Bearer " ++ p.apiKey }

/-- The error mapping of `(p *OpenAIProvider) Health(ctx)`: transport failure
is wrapped as `connection failed: %w`; status 401 is checked first and maps to
`ErrInvalidCredentials`; any other status that is not 200 maps to the generic
API error carrying status and body; status 200 is success (`nil`). -/
def healthOutcome : HTTPResult → Option BridgeError
  | .failure m => some (.connectionFailed m)
  | .response status body =>
    if status = 401 then some .invalidCredentials
    else if status ≠ 200 then some (.apiError status body)
    else none

/-- The JSON request body `StreamChat` marshals: the `map[string]interface{}`
with keys `model`, `messages`, `temperature`, `stream`, and — only when
`req.MaxTokens > 0` — `max_tokens`. -/
structure OpenAIRequestBody where
  model : String
  messages : List (String × String)
  temperature : Rat
  stream : Bool
  maxTokens : Option Int
  deriving DecidableEq, Repr

/-- `(p *OpenAIProvider) convertMessages`: 1:1 map of each `Message` to a
`{role, content}` record, order preserved. -/
def convertMessages (messages : List Message) : List (String × String) :=
  messages.map fun msg => (msg.role, msg.content)

/-- The request body built at the top of `StreamChat` from a `ChatRequest`.
Its JSON serialization is a function of this record, so two requests mapping
to equal records serialize identically. -/
def buildRequestBody (req : ChatRequest) : OpenAIRequestBody :=
  { model := req.model
    messages := convertMessages req.messages
    temperature := req.temperature
    stream := true
    maxTokens := if req.maxTokens > 0 then some req.maxTokens else none }

/-- `strings.TrimSpace`: drop whitespace from both ends. -/
def trimSpaceStr (s : String) : String :=
  ⟨((s.data.dropWhile Char.isWhitespace).reverse.dropWhile Char.isWhitespace).reverse⟩

/-- `strings.HasPrefix`. -/
def hasPrefixStr (pre s : String) : Bool :=
  decide (pre.data <+: s.data)

/-- `strings.TrimPrefix`. -/
def trimPrefixStr (pre s : String) : String :=
  if hasPrefixStr pre s then ⟨s.data.drop pre.data.length⟩ else s

/-- An abstract `json.Unmarshal` into `StreamChat`'s chunk struct:
`none` means the JSON was malformed (Unmarshal errored); `some cs` gives the
list of `Choices[i].Delta.Content` strings of the parsed chunk. -/
def SSEDecoder : Type := String → Option (List String)

/-- The dispatch `StreamChat`'s read loop applies to an already-trimmed line,
returning the text emitted for it (if any): skip blank lines and
`data: [DONE]`; skip lines without the `data: ` prefix; strip the prefix and
decode; on malformed JSON skip silently; otherwise emit the first choice's
delta content when present and non-empty. -/
def sseLineStep (decode : SSEDecoder) (line : String) : Option String :=
  if line = "" then none
  else if line = "data: [DONE]" then none
  else if hasPrefixStr "data: " line then
    match decode (trimPrefixStr "data: " line) with
    | none => none
    | some [] => none
    | some (c :: _) => if c = "" then none else some c
  else none

/-- A read loop iteration first trims the line it read
(`line = strings.TrimSpace(line)`) and then applies the step above. -/
def sseProcessLine (decode : SSEDecoder) (raw : String) : Option String :=
  sseLineStep decode (trimSpaceStr raw)

/-- A streamed response body as the reader observes it: a list of complete
lines followed by either EOF (`endErr = none`, clean close of both channels)
or a read error. -/
structure BodyStream where
  lines : List String
  endErr : Option String
  deriving DecidableEq, Repr

/-- The whole of `StreamChat`'s line loop on an uncancelled context: the texts
sent on the text channel, in order, and the value sent on the error channel
(`none`: EOF reached, both channels closed cleanly). -/
def streamSSE (decode : SSEDecoder) (body : BodyStream) :
    List String × Option BridgeError :=
  (body.lines.filterMap (sseProcessLine decode),
   match body.endErr with
   | none => none
   | some m => some (.readError m))

/-- One event `runStart`'s `select` loop observes from the two channels a
`StreamChat` call returned: a text chunk, a value received on the error
channel (`errSig none` is the `nil` a closed error channel yields, which the
loop ignores), or the text channel closing (`ok == false`). -/
inductive StreamEvent where
  | text (s : String)
  | errSig (e : Option BridgeError)
  | close
  deriving DecidableEq, Repr

/-- The `select` loop of `runStart` (lines 185–203): fold over the observed
event trace, printing and accumulating text chunks, ignoring `nil` error
values, stopping at the first non-nil error or at text-channel close.  An
exhausted trace means no further event arrives, so the
`time.After(30 * time.Second)` arm fires: `fmt.Errorf("stream timeout")`.
Returns the chunks printed so far and either the error or the accumulated
reply (`fullResponse.String()`). -/
def consumeStream : List StreamEvent → String → List String →
    List String × Except BridgeError String
  | [], _, emitted => (emitted, .error .streamTimeout)
  | .text s :: rest, acc, emitted => consumeStream rest (acc ++ s) (emitted ++ [s])
  | .errSig none :: rest, acc, emitted => consumeStream rest acc emitted
  | .errSig (some e) :: _, _, emitted => (emitted, .error e)
  | .close :: _, acc, emitted => (emitted, .ok acc)

/-- Consume a full stream trace starting from an empty reply buffer. -/
def resolveStream (events : List StreamEvent) : List String × Except BridgeError String :=
  consumeStream events "" []

/-- One side of the conversation as `runStart` uses it: the value
`DefaultModel()` returns, the result of `Health(ctx)` (`none` = healthy), and
the stream trace a `StreamChat` call with a given request produces. -/
structure Agent where
  defaultModel : String
  health : Option BridgeError
  behavior : ChatRequest → List StreamEvent

/-- A record of one `StreamChat` invocation the loop makes: which side was
speaking and the request passed. -/
structure CallRecord where
  speakerIsA : Bool
  req : ChatRequest
  deriving DecidableEq, Repr

/-- The observable outcome of `runStart`: the final `messages` slice, the
number of completed rounds, the returned error (`none` = success), every text
chunk printed with `fmt.Print`, and every `StreamChat` invocation made. -/
structure RunResult where
  history : List Message
  roundsDone : Nat
  error : Option BridgeError
  emitted : List String
  calls : List CallRecord
  deriving DecidableEq, Repr

/-- The loop-carried state of `runStart`'s `for round` loop. -/
structure LoopState where
  history : List Message
  currentText : String
  currentIsA : Bool
  roundsDone : Nat
  emitted : List String
  calls : List CallRecord
  deriving DecidableEq, Repr

/-- The `ChatRequest` built for the current round (lines 175–180): the
speaking agent's `DefaultModel()`, the entire history including the `user`
entry just appended, the speaking agent's temperature (`currentTemp := tempA;
if currentAgent == agentB { currentTemp = tempB }` — `agentA` and `agentB`
are distinct instances, so the identity test holds exactly when B speaks),
and `MaxTokens: 800`.  `SystemPrompt` is left at its zero value. -/
def roundRequest (A B : Agent) (tA tB : Rat) (st : LoopState) : ChatRequest :=
  { model := (if st.currentIsA then A else B).defaultModel
    messages := st.history ++ [⟨"user", st.currentText⟩]
    temperature := if st.currentIsA then tA else tB
    maxTokens := 800
    systemPrompt := "" }

/-- The `for round := 1; round <= maxRounds; round++` loop of `runStart`,
by recursion on the number of rounds left.  Each round appends the current
text as a `user` message, calls `StreamChat` on the speaking agent, and
consumes the stream: on an error the run returns it at once (no `assistant`
append, printed chunks kept); on clean close the accumulated reply is
appended as an `assistant` message, becomes the next round's text, and the
speaker switches. -/
def runLoop (A B : Agent) (tA tB : Rat) : Nat → LoopState → RunResult
  | 0, st => ⟨st.history, st.roundsDone, none, st.emitted, st.calls⟩
  | n + 1, st =>
    let req := roundRequest A B tA tB st
    match resolveStream ((if st.currentIsA then A else B).behavior req) with
    | (em, .error e) =>
      ⟨req.messages, st.roundsDone, some e, st.emitted ++ em,
        st.calls ++ [⟨st.currentIsA, req⟩]⟩
    | (em, .ok reply) =>
      runLoop A B tA tB n
        { history := req.messages ++ [⟨"assistant", reply⟩]
          currentText := reply
          currentIsA := !st.currentIsA
          roundsDone := st.roundsDone + 1
          emitted := st.emitted ++ em
          calls := st.calls ++ [⟨st.currentIsA, req⟩] }

/-- The loop state at the top of the first round: empty history, the starter
as current text, Agent A speaking. -/
def initState (starter : String) : LoopState :=
  ⟨[], starter, true, 0, [], []⟩

/-- `runStart` from the health-check phase on (configuration loading and
provider construction precede it and involve no `StreamChat` call): Agent A
is health-checked first, then Agent B; the first failure returns
`fmt.Errorf("Agent A/B health check failed: %w", err)` before the loop runs;
otherwise the round loop runs with the starter text. -/
def runStart (A B : Agent) (tA tB : Rat) (starter : String) (maxRounds : Nat) :
    RunResult :=
  match A.health with
  | some e => ⟨[], 0, some (.healthFailed true e), [], []⟩
  | none =>
    match B.health with
    | some e => ⟨[], 0, some (.healthFailed false e), [], []⟩
    | none => runLoop A B tA tB maxRounds (initState starter)

/-- A mock backend that always streams the chunks `"Hi"` then `" there"` and
then closes cleanly, with a passing health check. -/
def mockHi : Agent :=
  { defaultModel := "mock"
    health := none
    behavior := fun _ => [.text "Hi", .text " there", .close] }

/-- C1: running the orchestration loop with starter `"Hello"`, round limit 2,
and both agents backed by the same mock provider that streams `"Hi"` then
`" there"` and closes cleanly completes with no error, reports 2 completed
rounds, and leaves the shared history exactly `[user:"Hello",
assistant:"Hi there", user:"Hi there", assistant:"Hi there"]`: a user entry
appended at each round start and the accumulated reply appended as an
assistant entry at each round end, never reordered or deduplicated.  The
temperatures are irrelevant to the outcome and stay universally quantified. -/
theorem c1_end_to_end (tA tB : Rat) :
    (runStart mockHi mockHi tA tB "Hello" 2).history =
      [⟨"user", "Hello"⟩, ⟨"assistant", "Hi there"⟩,
       ⟨"user", "Hi there"⟩, ⟨"assistant", "Hi there"⟩] ∧
    (runStart mockHi mockHi tA tB "Hello" 2).roundsDone = 2 ∧
    (runStart mockHi mockHi tA tB "Hello" 2).error = none :=
  ⟨rfl, rfl, rfl⟩

/-- C2: for every provider key with no registered factory, `NewProvider`
returns the provider-not-implemented error and a nil provider instance, for
every configuration.  The spec map plays no part: `NewProvider`'s embedding
(like the Go function) does not even take the spec registry as an input, so
the result is unchanged whether or not a spec is registered for the key.
Totality of the embedded function is the never-panics guarantee. -/
theorem c2_no_factory_not_implemented (m : FactoryMap) (key : String)
    (cfg : ProviderConfig) (h : GetProviderFactory key m = none) :
    NewProvider key cfg m = (none, some (.providerNotImplemented key)) := by
  simp [NewProvider, h]

/-- Witness for C2 at the repository's initial registries: `"anthropic"` has
no factory (only `"openai"` registers one), so construction fails with the
typed error and no instance. -/
theorem c2_no_factory_not_implemented_witness :
    GetProviderFactory "anthropic" initialFactories = none ∧
    NewProvider "anthropic" ⟨"", "", "", 0⟩ initialFactories =
      (none, some (.providerNotImplemented "anthropic")) :=
  ⟨rfl, c2_no_factory_not_implemented initialFactories "anthropic" ⟨"", "", "", 0⟩ rfl⟩

/-- C7: for the key `"openai"`, which has both a spec and a factory
registered, `NewProvider` succeeds for every configuration with an instance
whose `Name()` is `"openai"` and whose `DefaultModel()` is `cfg.Model` when
that is non-empty, else the registered spec's default model. -/
theorem c7_factory_provider (cfg : ProviderConfig) :
    ∃ p spec,
      NewProvider "openai" cfg initialFactories = (some p, none) ∧
      GetProviderSpec "openai" initialRegistry = some spec ∧
      p.name = "openai" ∧
      p.defaultModel = (if cfg.model = "" then spec.defaultModel else cfg.model) := by
  refine ⟨openAIFactory cfg, openAISpec, rfl, rfl, rfl, ?_⟩
  simp [openAIFactory, NewOpenAIProvider, OpenAIProvider.toInst,
    OpenAIProvider.defaultModelOf, openAISpec]

/-- C9: registration is idempotent-by-key with last-wins semantics:
registering `s1` then `s2` under the same key leaves exactly `s2` retrievable
(with the lookup reporting it found), and a registration leaves every other
key's stored spec unchanged. -/
theorem c9_register_last_wins (r : Registry) (k other : String)
    (s1 s2 : ProviderSpec) (h1 : s1.key = k) (h2 : s2.key = k) :
    GetProviderSpec k (RegisterProvider s2 (RegisterProvider s1 r)) = some s2 ∧
    (other ≠ s2.key →
      GetProviderSpec other (RegisterProvider s2 r) = GetProviderSpec other r) := by
  constructor
  · simp [GetProviderSpec, RegisterProvider, h2]
  · intro hne
    simp [GetProviderSpec, RegisterProvider, hne]

/-- A second spec under the key `"openai"` with different metadata, used to
exercise last-wins registration. -/
def openAISpecV2 : ProviderSpec :=
  { key := "openai"
    name := "OpenAI v2"
    description := "replacement metadata"
    defaultModel := "gpt-4o"
    needsAPIKey := true
    models := ["gpt-4o"] }

/-- Witness for C9: re-registering `"openai"` with different metadata leaves
only the latest spec retrievable, and the key `"anthropic"` is untouched by a
registration for `"openai"`. -/
theorem c9_register_last_wins_witness :
    GetProviderSpec "openai"
      (RegisterProvider openAISpecV2 (RegisterProvider openAISpec emptyRegistry)) =
      some openAISpecV2 ∧
    GetProviderSpec "anthropic" (RegisterProvider openAISpecV2 emptyRegistry) =
      GetProviderSpec "anthropic" emptyRegistry := by
  obtain ⟨ha, hb⟩ :=
    c9_register_last_wins emptyRegistry "openai" "anthropic" openAISpec openAISpecV2 rfl rfl
  exact ⟨ha, hb (by decide)⟩

/-- C10: the HTTP request body `StreamChat` builds depends only on the
`ChatRequest`'s model, messages, temperature and max-tokens fields: two
requests agreeing on those four fields produce identical bodies (and hence
identical JSON serializations), whatever their `SystemPrompt` fields hold —
the system prompt is never transmitted. -/
theorem c10_body_ignores_system_prompt (r1 r2 : ChatRequest)
    (hm : r1.model = r2.model) (hmsg : r1.messages = r2.messages)
    (ht : r1.temperature = r2.temperature) (hmt : r1.maxTokens = r2.maxTokens) :
    buildRequestBody r1 = buildRequestBody r2 := by
  simp [buildRequestBody, convertMessages, hm, hmsg, ht, hmt]

/-- Witness for C10: two concrete requests that differ only in their system
prompt serialize to the same body. -/
theorem c10_body_ignores_system_prompt_witness :
    (⟨"m", [⟨"user", "hi"⟩], 1, 800, ""⟩ : ChatRequest).systemPrompt ≠
      (⟨"m", [⟨"user", "hi"⟩], 1, 800, "secret"⟩ : ChatRequest).systemPrompt ∧
    buildRequestBody ⟨"m", [⟨"user", "hi"⟩], 1, 800, ""⟩ =
      buildRequestBody ⟨"m", [⟨"user", "hi"⟩], 1, 800, "secret"⟩ :=
  ⟨by decide,
    c10_body_ignores_system_prompt _ _ rfl rfl rfl rfl⟩

/-- C3 counterexample: the claim promises success (nil error) for all 2xx
statuses other than 401, but the health check in the source treats every
status other than exactly 200 as an error: at status 204 — a 2xx that is
neither 200 nor 401 — the code returns the generic API error, not success. -/
theorem c3_health_counterexample :
    (200 ≤ 204 ∧ 204 < 300 ∧ (204 : Nat) ≠ 401 ∧ (204 : Nat) ≠ 200) ∧
    healthOutcome (.response 204 "No Content") = some (.apiError 204 "No Content") ∧
    healthOutcome (.response 204 "No Content") ≠ none := by
  decide

/-- C3 as amended: `Health` issues a GET to `<baseURL>/models` with
bearer-token auth and returns the invalid-credentials error exactly on status
401, a wrapped connection error on network failure, success (nil error)
exactly on status 200, and the generic API error carrying status and body on
every other status — non-200 2xx statuses included. -/
theorem c3_health_amended (p : OpenAIProvider) :
    p.healthRequest = ⟨"GET", p.baseURL ++ "/models", "Bearer " ++ p.apiKey⟩ ∧
    (∀ m, healthOutcome (.failure m) = some (.connectionFailed m)) ∧
    (∀ body, healthOutcome (.response 401 body) = some .invalidCredentials) ∧
    (∀ body, healthOutcome (.response 200 body) = none) ∧
    (∀ status body, status ≠ 401 → status ≠ 200 →
      healthOutcome (.response status body) = some (.apiError status body)) := by
  refine ⟨rfl, fun m => rfl, fun body => rfl, fun body => rfl, ?_⟩
  intro status body h401 h200
  simp [healthOutcome, h401, h200]

/-- Witness for C3 as amended, at a concrete provider and a concrete server
error status. -/
theorem c3_health_amended_witness :
    healthOutcome (.response 500 "oops") = some (.apiError 500 "oops") :=
  (c3_health_amended ⟨"k", "https://api.openai.com/v1", "gpt-4o-mini"⟩).2.2.2.2
    500 "oops" (by decide) (by decide)

/-- C5: in any round whose stream resolves with an error — an error signal on
the error channel (cancellation included, surfaced as the context-cancelled
error value) or the 30-second idle timeout (an exhausted trace: no further
text, close, or error event) — the loop aborts the whole run returning that
error; the history keeps only the `user` entry appended before the call, with
no `assistant` entry for the round; and the chunks already printed are kept,
not retracted. -/
theorem c5_midstream_abort (A B : Agent) (tA tB : Rat) (n : Nat) (st : LoopState)
    (em : List String) (e : BridgeError)
    (h : resolveStream ((if st.currentIsA then A else B).behavior
          (roundRequest A B tA tB st)) = (em, .error e)) :
    runLoop A B tA tB (n + 1) st =
      ⟨st.history ++ [⟨"user", st.currentText⟩], st.roundsDone, some e,
        st.emitted ++ em, st.calls ++ [⟨st.currentIsA, roundRequest A B tA tB st⟩]⟩ := by
  simp only [runLoop, h]
  rfl

/-- A mock backend that emits one chunk and then reports the
context-cancelled error on the error channel. -/
def mockCancel : Agent :=
  { defaultModel := "mock"
    health := none
    behavior := fun _ => [.text "Hi", .errSig (some .contextCancelled)] }

/-- Witness for C5: a run of up to 3 rounds is cancelled mid-stream in round
one after the chunk `"Hi"` was printed; the run returns the
context-cancelled error, the history holds only the `user` starter entry,
and the printed chunk is retained. -/
theorem c5_midstream_abort_witness :
    runLoop mockCancel mockCancel 1 1 3 (initState "Hello") =
      ⟨[⟨"user", "Hello"⟩], 0, some .contextCancelled, ["Hi"],
        [⟨true, roundRequest mockCancel mockCancel 1 1 (initState "Hello")⟩]⟩ :=
  c5_midstream_abort mockCancel mockCancel 1 1 2 (initState "Hello") ["Hi"]
    .contextCancelled rfl

/-- C6: agent A is health-checked before agent B, and the first health-check
failure aborts the whole run with that agent's (wrapped) error before any
`StreamChat` call is made to either agent: the result's call list is empty.
The first conjunct holds for every agent B whatever its health, which is the
A-before-B ordering. -/
theorem c6_health_gating (A B : Agent) (tA tB : Rat) (starter : String)
    (maxRounds : Nat) :
    (∀ e, A.health = some e →
      runStart A B tA tB starter maxRounds =
        ⟨[], 0, some (.healthFailed true e), [], []⟩) ∧
    (∀ e, A.health = none → B.health = some e →
      runStart A B tA tB starter maxRounds =
        ⟨[], 0, some (.healthFailed false e), [], []⟩) := by
  constructor
  · intro e hA
    simp [runStart, hA]
  · intro e hA hB
    simp [runStart, hA, hB]

/-- A mock backend whose health check reports invalid credentials. -/
def mockBadHealth : Agent :=
  { defaultModel := "mock"
    health := some .invalidCredentials
    behavior := fun _ => [.close] }

/-- Witness for C6: with agent A's health check failing with invalid
credentials, the run aborts with agent A's wrapped error and makes no
`StreamChat` call (the healthy agent B included). -/
theorem c6_health_gating_witness :
    runStart mockBadHealth mockHi 1 1 "Hello" 5 =
      ⟨[], 0, some (.healthFailed true .invalidCredentials), [], []⟩ :=
  (c6_health_gating mockBadHealth mockHi 1 1 "Hello" 5).1 .invalidCredentials rfl

/-- A line carrying the `data: ` marker is never the empty string. -/
theorem data_line_ne_empty (s : String) : "data: " ++ s ≠ "" := by
  intro h
  have h2 := congrArg String.data h
  rw [String.data_append] at h2
  exact absurd (List.append_eq_nil.mp h2).1 (by decide)

/-- A `data: `-marked line equals the terminator line only for the
`[DONE]` payload. -/
theorem data_line_eq_done (s : String) (h : "data: " ++ s = "data: [DONE]") :
    s = "[DONE]" := by
  have h2 := congrArg String.data h
  rw [String.data_append] at h2
  have h3 : "data: ".data ++ s.data = "data: ".data ++ "[DONE]".data := by
    rw [h2]; decide
  exact String.ext (List.append_cancel_left h3)

/-- `strings.HasPrefix` accepts a line built from the `data: ` marker. -/
theorem hasPrefixStr_data_line (s : String) :
    hasPrefixStr "data: " ("data: " ++ s) = true := by
  simp only [hasPrefixStr, String.data_append, decide_eq_true_eq]
  exact List.prefix_append _ _

/-- `strings.TrimPrefix` recovers the payload of a `data: `-marked line. -/
theorem trimPrefixStr_data_line (s : String) :
    trimPrefixStr "data: " ("data: " ++ s) = s := by
  simp only [trimPrefixStr, hasPrefixStr_data_line, if_true, String.data_append,
    List.drop_left]

/-- On a non-terminator `data: `-marked line the read loop strips the marker
and dispatches on the decoder's verdict. -/
theorem sseLineStep_data_line (decode : SSEDecoder) (s : String) (hs : s ≠ "[DONE]") :
    sseLineStep decode ("data: " ++ s) =
      match decode s with
      | none => none
      | some [] => none
      | some (c :: _) => if c = "" then none else some c := by
  rw [sseLineStep, if_neg (data_line_ne_empty s),
    if_neg (fun h => hs (data_line_eq_done s h)),
    if_pos (hasPrefixStr_data_line s), trimPrefixStr_data_line]

/-- C4: an SSE stream of three `data: ` frames whose middle payload is
malformed JSON (the decoder rejects it) and whose outer payloads are
well-formed frames carrying non-empty content deltas yields exactly the two
well-formed deltas, in order — the malformed frame is silently skipped with
no error emitted for it — and at EOF (`endErr = none`) both channels close
cleanly with no error. -/
theorem c4_sse_malformed_skipped (decode : SSEDecoder)
    (l1 lm l2 s1 sm s2 d1 d2 : String) (cs1 cs2 : List String)
    (ht1 : trimSpaceStr l1 = "data: " ++ s1)
    (htm : trimSpaceStr lm = "data: " ++ sm)
    (ht2 : trimSpaceStr l2 = "data: " ++ s2)
    (hs1 : s1 ≠ "[DONE]") (hs2 : s2 ≠ "[DONE]")
    (hd1 : decode s1 = some (d1 :: cs1)) (hdm : decode sm = none)
    (hd2 : decode s2 = some (d2 :: cs2))
    (hne1 : d1 ≠ "") (hne2 : d2 ≠ "") :
    streamSSE decode ⟨[l1, lm, l2], none⟩ = ([d1, d2], none) := by
  have h1 : sseProcessLine decode l1 = some d1 := by
    rw [sseProcessLine, ht1, sseLineStep_data_line decode s1 hs1, hd1]
    simp [hne1]
  have hm : sseProcessLine decode lm = none := by
    rw [sseProcessLine, htm]
    by_cases hDone : sm = "[DONE]"
    · subst hDone
      rfl
    · rw [sseLineStep_data_line decode sm hDone, hdm]
  have h2 : sseProcessLine decode l2 = some d2 := by
    rw [sseProcessLine, ht2, sseLineStep_data_line decode s2 hs2, hd2]
    simp [hne2]
  simp [streamSSE, h1, hm, h2]

/-- A concrete decoder: the payload `"ok1"` parses to one choice with delta
`"Hi"`, `"ok2"` to one choice with delta `" there"`, and everything else is
malformed. -/
def mockDecode : SSEDecoder := fun s =>
  if s = "ok1" then some ["Hi"]
  else if s = "ok2" then some [" there"]
  else none

/-- Witness for C4: a concrete three-frame stream with a malformed middle
frame yields exactly the two well-formed deltas and closes cleanly. -/
theorem c4_sse_malformed_skipped_witness :
    streamSSE mockDecode ⟨["data: ok1", "data: bad", "data: ok2"], none⟩ =
      (["Hi", " there"], none) :=
  c4_sse_malformed_skipped mockDecode "data: ok1" "data: bad" "data: ok2"
    "ok1" "bad" "ok2" "Hi" " there" [] []
    (by decide) (by decide) (by decide) (by decide) (by decide)
    (by decide) (by decide) (by decide) (by decide) (by decide)

/-- Per-call request discipline: the request carries the speaking agent's own
configured temperature — `tA` for Agent A, `tB` for Agent B — and the fixed
800 max-output-tokens ceiling. -/
def callTempOK (tA tB : Rat) (c : CallRecord) : Prop :=
  c.req.temperature = (if c.speakerIsA then tA else tB) ∧ c.req.maxTokens = 800

/-- The first recorded call (if any) was made with the given accumulated
history plus the freshly-appended `user` entry, by the given speaker. -/
def headOK (h : List Message) (t : String) (isA : Bool) : List CallRecord → Prop
  | [] => True
  | c :: _ => c.req.messages = h ++ [⟨"user", t⟩] ∧ c.speakerIsA = isA

/-- Consecutive `StreamChat` calls extend the history monotonically: each
next call's message list is the previous call's entire message list plus the
round's `assistant` reply plus that same reply re-delivered as the next
`user` entry, with the speaker alternating — i.e. every call carries the
entire accumulated history, never truncated or reordered. -/
def reqChain : List CallRecord → Prop
  | [] => True
  | [_] => True
  | c1 :: c2 :: rest =>
      ((∃ r, c2.req.messages = c1.req.messages ++ [⟨"assistant", r⟩, ⟨"user", r⟩]) ∧
        c2.speakerIsA = !c1.speakerIsA) ∧ reqChain (c2 :: rest)

/-- Loop invariant behind C8: from any loop state, the calls the loop adds
all obey the temperature/max-tokens discipline, the first one is made with
the state's history plus the new `user` entry by the state's speaker, and
successive calls chain the full history. -/
theorem runLoop_calls_ok (A B : Agent) (tA tB : Rat) :
    ∀ (n : Nat) (st : LoopState),
      ∃ newCalls,
        (runLoop A B tA tB n st).calls = st.calls ++ newCalls ∧
        (∀ c ∈ newCalls, callTempOK tA tB c) ∧
        headOK st.history st.currentText st.currentIsA newCalls ∧
        reqChain newCalls := by
  intro n
  induction n with
  | zero =>
    intro st
    exact ⟨[], by simp [runLoop], by simp, trivial, trivial⟩
  | succ n ih =>
    intro st
    rcases hres : resolveStream ((if st.currentIsA then A else B).behavior
        (roundRequest A B tA tB st)) with ⟨em, out⟩
    cases out with
    | error e =>
      refine ⟨[⟨st.currentIsA, roundRequest A B tA tB st⟩], ?_, ?_, ?_, ?_⟩
      · simp only [runLoop, hres]
      · intro c hc
        rw [List.mem_singleton] at hc
        subst hc
        exact ⟨rfl, rfl⟩
      · exact ⟨rfl, rfl⟩
      · trivial
    | ok reply =>
      obtain ⟨new', hcalls, hper, hhead, hchain⟩ := ih
        { history := (roundRequest A B tA tB st).messages ++ [⟨"assistant", reply⟩]
          currentText := reply
          currentIsA := !st.currentIsA
          roundsDone := st.roundsDone + 1
          emitted := st.emitted ++ em
          calls := st.calls ++ [⟨st.currentIsA, roundRequest A B tA tB st⟩] }
      refine ⟨⟨st.currentIsA, roundRequest A B tA tB st⟩ :: new', ?_, ?_, ?_, ?_⟩
      · simp only [runLoop, hres]
        rw [hcalls]
        simp
      · intro c hc
        rcases List.mem_cons.mp hc with h | h
        · subst h
          exact ⟨rfl, rfl⟩
        · exact hper c h
      · exact ⟨rfl, rfl⟩
      · cases new' with
        | nil => trivial
        | cons c2 rest =>
          refine ⟨⟨⟨reply, ?_⟩, ?_⟩, hchain⟩
          · rw [hhead.1]
            simp [roundRequest]
          · exact hhead.2

/-- C8: in every round of every run, the `ChatRequest` passed to `StreamChat`
carries the currently speaking agent's own configured temperature (`tA` when
A speaks, `tB` when B speaks, never the other agent's) and the fixed
max-output-tokens ceiling of 800; the first call's history is exactly the
starter delivered as a `user` entry; and each later call's history is the
entire previous call's history extended by that round's `assistant` reply and
its re-delivery as the next `user` entry — the entire accumulated history. -/
theorem c8_round_requests (A B : Agent) (tA tB : Rat) (starter : String)
    (maxRounds : Nat) :
    (∀ c ∈ (runStart A B tA tB starter maxRounds).calls,
      c.req.temperature = (if c.speakerIsA then tA else tB) ∧
      c.req.maxTokens = 800) ∧
    headOK [] starter true (runStart A B tA tB starter maxRounds).calls ∧
    reqChain (runStart A B tA tB starter maxRounds).calls := by
  cases hA : A.health with
  | some e =>
    refine ⟨?_, ?_, ?_⟩ <;> simp [runStart, hA, headOK, reqChain]
  | none =>
    cases hB : B.health with
    | some e =>
      refine ⟨?_, ?_, ?_⟩ <;> simp [runStart, hA, hB, headOK, reqChain]
    | none =>
      obtain ⟨new, hcalls, hper, hhead, hchain⟩ :=
        runLoop_calls_ok A B tA tB maxRounds (initState starter)
      have hrun : runStart A B tA tB starter maxRounds =
          runLoop A B tA tB maxRounds (initState starter) := by
        simp [runStart, hA, hB]
      rw [hrun, hcalls]
      simp only [initState, List.nil_append]
      exact ⟨fun c hc => hper c hc, hhead, hchain⟩

/-- Witness for C8: in the concrete two-round mock run, the first round's
recorded call — Agent A speaking with history `[user:"Hello"]` — carries
Agent A's own temperature and the 800-token ceiling. -/
theorem c8_round_requests_witness :
    (⟨true, ⟨"mock", [⟨"user", "Hello"⟩], 1, 800, ""⟩⟩ : CallRecord) ∈
      (runStart mockHi mockHi 1 2 "Hello" 2).calls ∧
    ((⟨"mock", [⟨"user", "Hello"⟩], 1, 800, ""⟩ : ChatRequest).temperature =
        (if (true : Bool) then (1 : Rat) else 2) ∧
      (⟨"mock", [⟨"user", "Hello"⟩], 1, 800, ""⟩ : ChatRequest).maxTokens = 800) :=
  ⟨by decide,
    (c8_round_requests mockHi mockHi 1 2 "Hello" 2).1
      ⟨true, ⟨"mock", [⟨"user", "Hello"⟩], 1, 800, ""⟩⟩ (by decide)⟩
